import Mathlib

/-!
Shallow embedding of the metadata-synthesis and identifier-reconciliation
logic of the bassettassociates repository (omeka_upload_data.py and
extract_omeka_csv_export_data.py), together with theorems checking the
specification's claims against it.

Python strings become Lean `String`, Python dicts become association lists
(`List (String × String)`), Python list indexing with a possible
`IndexError` and dict subscripting with a possible `KeyError` become
`Except PyError` computations, and the try/except around the image
dimension probe becomes an `Option`-valued probe parameter.
-/

set_option maxRecDepth 4000

namespace Bassett

/-- Errors the Python code can raise while synthesizing a row or reconciling:
a `KeyError` from a dict subscript with a missing key, or an `IndexError`
from indexing a list out of bounds. -/
inductive PyError where
  | keyError (key : String)
  | indexError
  deriving DecidableEq, Repr

/-- The message Python prints for the error (the `KeyError` text carries the
missing key, the `IndexError` text is fixed). -/
def pyErrorMessage : PyError → String
  | .keyError k => "KeyError: " ++ k
  | .indexError => "IndexError: list index out of range"

/-- The string `msg` contains `sub` as a contiguous substring. -/
def mentions (msg sub : String) : Prop :=
  ∃ pre post, msg = pre ++ sub ++ post

/-- Lookup in an association list modelling a Python dict: first binding wins
(keys of the embedded tables are distinct, so this matches dict lookup). -/
def lookupStr (m : List (String × String)) (k : String) : Option String :=
  match m with
  | [] => none
  | (k2, v) :: rest => if k = k2 then some v else lookupStr rest k

/-- Python dict subscript `m[k]`: the value, or a `KeyError` naming `k`. -/
def pyDictGet (m : List (String × String)) (k : String) : Except PyError String :=
  match lookupStr m k with
  | some v => Except.ok v
  | none => Except.error (PyError.keyError k)

/-- Auxiliary for `pySplit`: accumulates the current (reversed) chunk. -/
def pySplitAux (sep : Char) : List Char → List Char → List String
  | [], acc => [String.mk acc.reverse]
  | c :: rest, acc =>
      if c = sep then String.mk acc.reverse :: pySplitAux sep rest []
      else pySplitAux sep rest (c :: acc)

/-- Python `s.split(sep)` for a single-character separator: splits at every
occurrence, keeping empty chunks; the empty string splits to `[""]`. -/
def pySplit (sep : Char) (s : String) : List String :=
  pySplitAux sep s.data []

/-- Python `lst[-n]` for `n ≥ 1`: the element `n` places from the end, or an
`IndexError` when the list is too short. -/
def pyIndexNeg (l : List String) (n : Nat) : Except PyError String :=
  if h : 1 ≤ n ∧ n ≤ l.length then
    Except.ok (l.get ⟨l.length - n, by omega⟩)
  else
    Except.error PyError.indexError

/-- Python `lst[0]`: the head, or an `IndexError` on an empty list. -/
def pyIndex0 (l : List String) : Except PyError String :=
  match l with
  | [] => Except.error PyError.indexError
  | x :: _ => Except.ok x

/-- Auxiliary for `splitextStem`: splits a character list at its LAST dot,
returning the characters before and after it, or `none` when there is no dot. -/
def splitAtLastDot : List Char → Option (List Char × List Char)
  | [] => none
  | c :: rest =>
      match splitAtLastDot rest with
      | some (pre, post) => some (c :: pre, post)
      | none => if c = '.' then some ([], rest) else none

/-- Python `os.path.splitext(s)[0]` for a name without path separators: the
part before the last dot, except that a name whose characters before that dot
are all dots (e.g. a leading-dot name) is returned whole. -/
def splitextStem (s : String) : String :=
  match splitAtLastDot s.data with
  | none => s
  | some (pre, _) => if pre.any (fun c => c ≠ '.') then String.mk pre else s

/-! The five lookup tables of omeka_upload_data.py, verbatim. -/

/-- FORMAT_MAP: file extension to MIME type. -/
def FORMAT_MAP : List (String × String) :=
  [("jpg", "image/jpeg"),
   ("png", "image/png"),
   ("tif", "image/tiff"),
   ("gif", "image/gif"),
   ("pdf", "application/pdf")]

/-- ORIGINAL_FORMAT_MAP: format code to original-format label. -/
def ORIGINAL_FORMAT_MAP : List (String × String) :=
  [("ph", "photo"),
   ("sk", "sketch"),
   ("pl", "plan"),
   ("mo", "model"),
   ("di", "diagram"),
   ("po", "poster"),
   ("rp", "printed report")]

/-- CREATOR_MAP: format code to creator name. -/
def CREATOR_MAP : List (String × String) :=
  [("ph", "Bassett Associates"),
   ("sk", "James H. Bassett"),
   ("pl", "Bassett Associates"),
   ("mo", "Bassett Associates"),
   ("di", "Bassett Associates"),
   ("po", "Bassett Associates"),
   ("rp", "Bassett Associates")]

/-- LANGUAGE_MAP: format codes that carry a language code. -/
def LANGUAGE_MAP : List (String × String) :=
  [("sk", "en"),
   ("pl", "en"),
   ("po", "en"),
   ("rp", "en")]

/-- TAGS_MAP: category token to display tag. -/
def TAGS_MAP : List (String × String) :=
  [("zoo", "zoo"),
   ("cmp", "campus"),
   ("cbd", "downtown"),
   ("mrf", "Muirfield"),
   ("pvt", "private estate"),
   ("glf", "golf"),
   ("exhibit", "2001 exhibit"),
   ("kcz", "Kansas City"),
   ("ftw", "Fort Wayne"),
   ("col", "Columbus"),
   ("cha", "Chaffee"),
   ("eri", "Erie"),
   ("bin", "Binder Park"),
   ("bla", "Blank Park"),
   ("hen", "Henson Robinson"),
   ("bre", "Brevard"),
   ("lou", "Louisville"),
   ("sco", "Scovill"),
   ("onu", "ONU"),
   ("blu", "Bluffton"),
   ("omr", "OSU-Marion"),
   ("oli", "OSU-Lima"),
   ("bgu", "BGSU"),
   ("bat", "Bath"),
   ("fin", "Findlay"),
   ("lim", "Lima"),
   ("bel", "Bellefontaine"),
   ("tif", "Tiffin"),
   ("man", "Mansfield"),
   ("yng", "Youngstown"),
   ("cap", "Capital Square"),
   ("chi", "Chillicothe"),
   ("amf", "AmeriFlora"),
   ("ana", "analysis"),
   ("tra", "transportation"),
   ("use", "land use planning"),
   ("gavin", "Gavin"),
   ("crouse", "Crouse"),
   ("haw", "Hawthorn Hills"),
   ("sug", "Sugar Creek"),
   ("art", "artwork"),
   ("report", "report")]

/-- One synthesized metadata row (the columns the loop body of
generate_metadata_csv_for_omeka_upload assigns). -/
structure MetadataRecord where
  rights : String
  source : String
  publisher : String
  uploadUrl : String
  originalFormat : String
  type : String
  physicalDimensions : String
  format : String
  language : String
  title : String
  description : String
  date : String
  creator : String
  tags : String
  deriving DecidableEq, Repr, Inhabited

/-- Python `'x'.join`-style comma join used for the tags string. -/
def joinComma : List String → String
  | [] => ""
  | [t] => t
  | t :: rest => t ++ "," ++ joinComma rest

/-- The tag_list loop: for each token, if it is in TAGS_MAP append its label. -/
def tagListOf : List String → List String
  | [] => []
  | t :: rest =>
      match lookupStr TAGS_MAP t with
      | some v => v :: tagListOf rest
      | none => tagListOf rest

/-- The comma-joined tags string built from a token list. -/
def tagString (tokens : List String) : String :=
  joinComma (tagListOf tokens)

/-- The dimensions string: `"<w>x<h>"` from the probe, or `""` when the probe
fails (the try/except at lines 224-229). -/
def dimensionString (probe : String → Option (Nat × Nat)) (fileName : String) : String :=
  match probe fileName with
  | some (w, h) => toString w ++ "x" ++ toString h
  | none => ""

/-- `image_id.split('_')[-2]`: the format code extracted from the stem. -/
def formatCodeOf (imageId : String) : Except PyError String :=
  pyIndexNeg (pySplit '_' imageId) 2

/-- The record the loop body assembles once the three fallible lookups have
resolved: `code` is the format code, `ofv` the original-format label, `fmt`
the MIME type, `cr` the creator; the remaining fields are computed from the
filename and the total lookups exactly as the Python assignments do. -/
def synthesizedRecord (probe : String → Option (Nat × Nat))
    (baseUrl fileName code ofv fmt cr : String) : MetadataRecord :=
  { rights := "Available under a Creative Commons Attribution 4.0 International (CC BY 4.0) license"
    source := "Bassett Associates files"
    publisher := "James H. Bassett"
    uploadUrl := baseUrl ++ fileName
    originalFormat := ofv
    type := if code = "rp" then "Text" else "StillImage"
    physicalDimensions := dimensionString probe fileName
    format := fmt
    language := (lookupStr LANGUAGE_MAP code).getD ""
    title := ""
    description := ""
    date := ""
    creator := cr
    tags := tagString ((pySplit '_' (splitextStem fileName)).take 2) }

/-- The loop body of generate_metadata_csv_for_omeka_upload (lines 197-259):
synthesizes one metadata row from a filename, the upload base URL, and the
dimension probe. The fallible steps run in the order the Python statements
do: stem token `[-2]`, ORIGINAL_FORMAT_MAP subscript, extension `[-1]`,
FORMAT_MAP subscript, CREATOR_MAP subscript. -/
def synthesizeRow (probe : String → Option (Nat × Nat)) (baseUrl fileName : String) :
    Except PyError MetadataRecord :=
  match formatCodeOf (splitextStem fileName) with
  | Except.error e => Except.error e
  | Except.ok code =>
    match pyDictGet ORIGINAL_FORMAT_MAP code with
    | Except.error e => Except.error e
    | Except.ok ofv =>
      match pyIndexNeg (pySplit '.' fileName) 1 with
      | Except.error e => Except.error e
      | Except.ok ext =>
        match pyDictGet FORMAT_MAP ext with
        | Except.error e => Except.error e
        | Except.ok fmt =>
          match pyDictGet CREATOR_MAP code with
          | Except.error e => Except.error e
          | Except.ok cr =>
            Except.ok (synthesizedRecord probe baseUrl fileName code ofv fmt cr)

/-- The loop of generate_metadata_csv_for_omeka_upload over the batch: each
filename yields a row keyed by its stem, appended in order; the first
`KeyError`/`IndexError` aborts the whole loop. -/
def buildRows (probe : String → Option (Nat × Nat)) (baseUrl : String) :
    List String → Except PyError (List (String × MetadataRecord))
  | [] => Except.ok []
  | f :: rest =>
    match synthesizeRow probe baseUrl f with
    | Except.error e => Except.error e
    | Except.ok r =>
      match buildRows probe baseUrl rest with
      | Except.error e => Except.error e
      | Except.ok tail => Except.ok ((splitextStem f, r) :: tail)

/-- Lexicographic order on character lists by Unicode code point, the order
Python uses to compare strings (a proper prefix sorts first). -/
def charListLe : List Char → List Char → Bool
  | [], _ => true
  | _ :: _, [] => false
  | a :: as, b :: bs =>
      if Nat.blt a.toNat b.toNat then true
      else if Nat.blt b.toNat a.toNat then false
      else charListLe as bs

/-- Python string comparison `a <= b`. -/
def strLe (a b : String) : Bool :=
  charListLe a.data b.data

/-- Insert a keyed row into a key-sorted list of rows. -/
def orderedInsertKey (x : String × MetadataRecord) :
    List (String × MetadataRecord) → List (String × MetadataRecord)
  | [] => [x]
  | y :: ys => if strLe x.1 y.1 then x :: y :: ys else y :: orderedInsertKey x ys

/-- Sort the rows by key in ascending lexical order (the sort_index call at
line 265; every appended row is kept). -/
def sortByKey : List (String × MetadataRecord) → List (String × MetadataRecord)
  | [] => []
  | x :: xs => orderedInsertKey x (sortByKey xs)

/-- The emitted table: the appended rows sorted by key. -/
def generateMetadataTable (probe : String → Option (Nat × Nat)) (baseUrl : String)
    (files : List String) : Except PyError (List (String × MetadataRecord)) :=
  (buildRows probe baseUrl files).map sortByKey

/-- `upload_file_base_url` at line 190. -/
def uploadFileBaseUrl (bucket subpath : String) : String :=
  "https://" ++ bucket ++ ".s3.amazonaws.com/" ++ subpath

/-! Reconciliation model (extract_omeka_csv_export_data.py, lines 52-71). -/

/-- One row of the identifiers registry (identifiers.csv): the key column and
the two fields the reconciliation loop reads or writes. -/
structure RegistryRow where
  identifier : String
  omeka_id : String
  item_id : String
  deriving DecidableEq, Repr

/-- The fields of one Omeka export row (export.csv) that reconciliation reads. -/
structure ExportRow where
  file : String
  itemId : String
  deriving DecidableEq, Repr

/-- `export_df.loc[identifier]`: the first export row under the key, or a
`KeyError` when the key is absent from the export table. -/
def exportLoc (exportTbl : List (String × ExportRow)) (identifier : String) :
    Except PyError ExportRow :=
  match exportTbl with
  | [] => Except.error (PyError.keyError identifier)
  | (k, er) :: rest => if identifier = k then Except.ok er else exportLoc rest identifier

/-- The body of the reconciliation loop for one registry row: rows with an
empty omeka_id get it refilled from the export row's file URL (split on `/`,
take last; split on `.`, take first) and their item_id overwritten with the
export row's Item Id; other rows are left as they are. -/
def reconcileRow (exportTbl : List (String × ExportRow)) (row : RegistryRow) :
    Except PyError RegistryRow :=
  if row.omeka_id = "" then
    match exportLoc exportTbl row.identifier with
    | Except.error e => Except.error e
    | Except.ok er =>
      match pyIndexNeg (pySplit '/' er.file) 1 with
      | Except.error e => Except.error e
      | Except.ok omekaFileName =>
        match pyIndex0 (pySplit '.' omekaFileName) with
        | Except.error e => Except.error e
        | Except.ok omekaFileIdentifier =>
          Except.ok { row with omeka_id := omekaFileIdentifier, item_id := er.itemId }
  else
    Except.ok row

/-- The whole reconciliation pass over the registry, row by row in order; a
`KeyError` on a missing export row aborts the pass. -/
def reconcilePass (exportTbl : List (String × ExportRow)) :
    List RegistryRow → Except PyError (List RegistryRow)
  | [] => Except.ok []
  | row :: rest =>
    match reconcileRow exportTbl row with
    | Except.error e => Except.error e
    | Except.ok row2 =>
      match reconcilePass exportTbl rest with
      | Except.error e => Except.error e
      | Except.ok rest2 => Except.ok (row2 :: rest2)

/-! Helper lemmas. -/

/-- `pySplitAux` always returns at least one chunk. -/
theorem pySplitAux_ne_nil (sep : Char) :
    ∀ (cs acc : List Char), pySplitAux sep cs acc ≠ [] := by
  intro cs
  induction cs with
  | nil => intro acc; simp [pySplitAux]
  | cons c rest ih =>
      intro acc
      by_cases hc : c = sep
      · simp [pySplitAux, hc]
      · simpa [pySplitAux, hc] using ih (c :: acc)

/-- Python split never yields an empty list of chunks. -/
theorem pySplit_ne_nil (sep : Char) (s : String) : pySplit sep s ≠ [] :=
  pySplitAux_ne_nil sep s.data []

/-- On a nonempty list, `lst[-1]` is the last element. -/
theorem pyIndexNeg_one (l : List String) (h : l ≠ []) :
    pyIndexNeg l 1 = Except.ok (l.getLastD "") := by
  have hlen : 1 ≤ l.length := List.length_pos.mpr h
  unfold pyIndexNeg
  rw [dif_pos ⟨Nat.le_refl 1, hlen⟩]
  congr 1
  rw [List.get_length_sub_one]
  cases l with
  | nil => exact absurd rfl h
  | cons a t =>
      rw [List.getLast_eq_getLastD]
      cases t with
      | nil => rfl
      | cons b u => simp [List.getLastD]

/-- On a nonempty list, `lst[0]` is the head. -/
theorem pyIndex0_headD (l : List String) (h : l ≠ []) :
    pyIndex0 l = Except.ok (l.headD "") := by
  cases l with
  | nil => exact absurd rfl h
  | cons a t => rfl

/-- When `lst[-n]` succeeds it returns the element at position `length - n`. -/
theorem pyIndexNeg_ok_get? (l : List String) (n : Nat) (v : String)
    (h : pyIndexNeg l n = Except.ok v) : l.get? (l.length - n) = some v := by
  unfold pyIndexNeg at h
  by_cases hc : 1 ≤ n ∧ n ≤ l.length
  · rw [dif_pos hc] at h
    have hv := Except.ok.inj h
    have hlt : l.length - n < l.length := by omega
    rw [List.get?_eq_get hlt]
    exact congrArg some hv
  · rw [dif_neg hc] at h
    exact absurd h (by simp)

/-- Inserting into the key-sorted list is a permutation of consing. -/
theorem orderedInsertKey_perm (x : String × MetadataRecord) :
    ∀ l : List (String × MetadataRecord), (orderedInsertKey x l).Perm (x :: l) := by
  intro l
  induction l with
  | nil => simp [orderedInsertKey]
  | cons y ys ih =>
      by_cases hc : strLe x.1 y.1
      · simp [orderedInsertKey, hc]
      · simp only [orderedInsertKey, hc, Bool.false_eq_true, if_false]
        exact (ih.cons y).trans (List.Perm.swap x y ys)

/-- Sorting the rows by key permutes them. -/
theorem sortByKey_perm :
    ∀ l : List (String × MetadataRecord), (sortByKey l).Perm l := by
  intro l
  induction l with
  | nil => simp [sortByKey]
  | cons x xs ih => exact (orderedInsertKey_perm x (sortByKey xs)).trans (ih.cons x)

/-- When the batch loop succeeds, the emitted keys are the stems of the
batch filenames, in order. -/
theorem buildRows_ok_keys (probe : String → Option (Nat × Nat)) (baseUrl : String) :
    ∀ (files : List String) (t : List (String × MetadataRecord)),
      buildRows probe baseUrl files = Except.ok t →
      t.map Prod.fst = files.map splitextStem := by
  intro files
  induction files with
  | nil =>
      intro t h
      simp [buildRows] at h
      subst h; rfl
  | cons f rest ih =>
      intro t h
      unfold buildRows at h
      cases hr : synthesizeRow probe baseUrl f with
      | error e => rw [hr] at h; exact absurd h (by simp)
      | ok r =>
          rw [hr] at h
          cases hb : buildRows probe baseUrl rest with
          | error e => rw [hb] at h; exact absurd h (by simp)
          | ok tail =>
              rw [hb] at h
              have ht : t = (splitextStem f, r) :: tail := (Except.ok.inj h).symm
              subst ht
              simp [ih tail hb]

/-- A filename whose row synthesis fails makes the whole batch loop fail. -/
theorem buildRows_error_of_mem (probe : String → Option (Nat × Nat)) (baseUrl f : String)
    (e : PyError) (hf : synthesizeRow probe baseUrl f = Except.error e) :
    ∀ l1 l2 : List String, ∃ e2, buildRows probe baseUrl (l1 ++ f :: l2) = Except.error e2 := by
  intro l1
  induction l1 with
  | nil =>
      intro l2
      refine ⟨e, ?_⟩
      simp [buildRows, hf]
  | cons g l1 ih =>
      intro l2
      cases hg : synthesizeRow probe baseUrl g with
      | error e3 => exact ⟨e3, by simp [buildRows, hg]⟩
      | ok r =>
          obtain ⟨e2, he2⟩ := ih l2
          exact ⟨e2, by simp [buildRows, hg, he2]⟩

/-- A registry row with a nonempty omeka_id passes through reconciliation
untouched. -/
theorem reconcileRow_nonempty (exportTbl : List (String × ExportRow)) (row : RegistryRow)
    (h : row.omeka_id ≠ "") : reconcileRow exportTbl row = Except.ok row := by
  unfold reconcileRow
  rw [if_neg h]

/-- A registry row with an empty omeka_id and a matching export row gets its
omeka_id and item_id refilled from that export row. -/
theorem reconcileRow_empty (exportTbl : List (String × ExportRow)) (er : ExportRow)
    (row : RegistryRow) (h1 : row.omeka_id = "")
    (h2 : exportLoc exportTbl row.identifier = Except.ok er) :
    reconcileRow exportTbl row = Except.ok
      { row with
        omeka_id := (pySplit '.' ((pySplit '/' er.file).getLastD "")).headD "",
        item_id := er.itemId } := by
  unfold reconcileRow
  rw [if_pos h1]
  simp only [h2, pyIndexNeg_one (pySplit '/' er.file) (pySplit_ne_nil '/' er.file),
    pyIndex0_headD (pySplit '.' ((pySplit '/' er.file).getLastD ""))
      (pySplit_ne_nil '.' ((pySplit '/' er.file).getLastD ""))]

/-- A dict subscript succeeds exactly when the lookup does. -/
theorem pyDictGet_ok_iff (m : List (String × String)) (k v : String) :
    pyDictGet m k = Except.ok v ↔ lookupStr m k = some v := by
  unfold pyDictGet
  cases h : lookupStr m k <;> simp [h]

/-- When the five fallible steps of row synthesis resolve as given, the
synthesizer emits the assembled record. -/
theorem synthesizeRow_eq (probe : String → Option (Nat × Nat))
    (baseUrl fileName code ofv ext fmt cr : String)
    (hc : formatCodeOf (splitextStem fileName) = Except.ok code)
    (h2 : lookupStr ORIGINAL_FORMAT_MAP code = some ofv)
    (h3 : pyIndexNeg (pySplit '.' fileName) 1 = Except.ok ext)
    (h4 : lookupStr FORMAT_MAP ext = some fmt)
    (h5 : lookupStr CREATOR_MAP code = some cr) :
    synthesizeRow probe baseUrl fileName =
      Except.ok (synthesizedRecord probe baseUrl fileName code ofv fmt cr) := by
  unfold synthesizeRow
  simp only [hc, pyDictGet, h2, h3, h4, h5]

/-- Inversion: a successful row synthesis determines the five resolved
values and shows the record is the assembled one. -/
theorem synthesizeRow_ok_inv (probe : String → Option (Nat × Nat))
    (baseUrl fileName : String) (r : MetadataRecord)
    (h : synthesizeRow probe baseUrl fileName = Except.ok r) :
    ∃ code ofv ext fmt cr,
      formatCodeOf (splitextStem fileName) = Except.ok code ∧
      lookupStr ORIGINAL_FORMAT_MAP code = some ofv ∧
      pyIndexNeg (pySplit '.' fileName) 1 = Except.ok ext ∧
      lookupStr FORMAT_MAP ext = some fmt ∧
      lookupStr CREATOR_MAP code = some cr ∧
      r = synthesizedRecord probe baseUrl fileName code ofv fmt cr := by
  unfold synthesizeRow at h
  split at h
  · exact absurd h (by simp)
  next code hc =>
    split at h
    · exact absurd h (by simp)
    next ofv h2 =>
      split at h
      · exact absurd h (by simp)
      next ext h3 =>
        split at h
        · exact absurd h (by simp)
        next fmt h4 =>
          split at h
          · exact absurd h (by simp)
          next cr h5 =>
            exact ⟨code, ofv, ext, fmt, cr, hc, (pyDictGet_ok_iff _ _ _).mp h2, h3,
              (pyDictGet_ok_iff _ _ _).mp h4, (pyDictGet_ok_iff _ _ _).mp h5,
              (Except.ok.inj h).symm⟩

/-! Claim theorems. -/

/-- C1: for the filename `zoo_kcz_chimp_ph_00.tif` with base URL
`https://bucket.s3.amazonaws.com/zoo/kcz/master/`, the row synthesizer
produces a record with Format `image/tiff`, Original-Format `photo`, Type
`StillImage`, Creator `Bassett Associates`, empty Language, Tags
`zoo,Kansas City`, and Upload-URL base URL plus filename, whatever the
dimension probe returns. -/
theorem claim_c1 (probe : String → Option (Nat × Nat)) :
    ∃ r, synthesizeRow probe "https://bucket.s3.amazonaws.com/zoo/kcz/master/"
        "zoo_kcz_chimp_ph_00.tif" = Except.ok r ∧
      r.format = "image/tiff" ∧
      r.originalFormat = "photo" ∧
      r.type = "StillImage" ∧
      r.creator = "Bassett Associates" ∧
      r.language = "" ∧
      r.tags = "zoo,Kansas City" ∧
      r.uploadUrl = "https://bucket.s3.amazonaws.com/zoo/kcz/master/zoo_kcz_chimp_ph_00.tif" :=
  ⟨synthesizedRecord probe "https://bucket.s3.amazonaws.com/zoo/kcz/master/"
      "zoo_kcz_chimp_ph_00.tif" "ph" "photo" "image/tiff" "Bassett Associates",
    rfl, rfl, rfl, rfl, rfl, rfl, rfl, rfl⟩

/-- Witness for C1 at a concrete probe. -/
theorem claim_c1_witness :
    ∃ r, synthesizeRow (fun _ => none) "https://bucket.s3.amazonaws.com/zoo/kcz/master/"
        "zoo_kcz_chimp_ph_00.tif" = Except.ok r ∧
      r.format = "image/tiff" ∧
      r.originalFormat = "photo" ∧
      r.type = "StillImage" ∧
      r.creator = "Bassett Associates" ∧
      r.language = "" ∧
      r.tags = "zoo,Kansas City" ∧
      r.uploadUrl = "https://bucket.s3.amazonaws.com/zoo/kcz/master/zoo_kcz_chimp_ph_00.tif" :=
  claim_c1 (fun _ => none)

/-- C2 counterexample: the batch `["a_ph_0.tif", "a_ph_0.jpg"]` has two
filenames with the same stem `a_ph_0`, yet the emitted table keeps TWO rows
under that stem, not exactly one: the builder appends rows, it never
overwrites. -/
theorem claim_c2_counterexample :
    (generateMetadataTable (fun _ => none) "" ["a_ph_0.tif", "a_ph_0.jpg"]).map
        (fun t => t.countP (fun row => row.1 == "a_ph_0")) = Except.ok 2 := by
  rfl

/-- C2 amended: the builder keeps every synthesized row; for every stem the
number of rows in the emitted table keyed by it equals the number of batch
filenames with that stem (so duplicate stems yield duplicate rows, nothing
is overwritten). -/
theorem claim_c2_amended (probe : String → Option (Nat × Nat)) (baseUrl : String)
    (files : List String) (t : List (String × MetadataRecord)) (s : String)
    (h : generateMetadataTable probe baseUrl files = Except.ok t) :
    t.countP (fun row => row.1 == s) = files.countP (fun f => splitextStem f == s) := by
  unfold generateMetadataTable at h
  cases hb : buildRows probe baseUrl files with
  | error e => rw [hb] at h; exact absurd h (by simp [Except.map])
  | ok u =>
      rw [hb] at h
      have ht : t = sortByKey u := (Except.ok.inj h).symm
      subst ht
      have hkeys := buildRows_ok_keys probe baseUrl files u hb
      have hperm : List.countP (fun row => row.1 == s) (sortByKey u) =
          List.countP (fun row => row.1 == s) u :=
        List.Perm.countP_eq _ (sortByKey_perm u)
      have hmap1 : List.countP (fun row => row.1 == s) u =
          List.countP (fun k => k == s) (u.map Prod.fst) :=
        (List.countP_map (fun k => k == s) Prod.fst u).symm
      have hmap2 : List.countP (fun k => k == s) (files.map splitextStem) =
          List.countP (fun f => splitextStem f == s) files :=
        List.countP_map (fun k => k == s) splitextStem files
      rw [hperm, hmap1, hkeys, hmap2]

/-- Witness for C2 amended on the duplicate-stem batch. -/
theorem claim_c2_amended_witness :
    List.countP (fun row => row.1 == "a_ph_0")
        ((generateMetadataTable (fun _ => none) "" ["a_ph_0.tif", "a_ph_0.jpg"]).toOption.getD []) =
      List.countP (fun f => splitextStem f == "a_ph_0") ["a_ph_0.tif", "a_ph_0.jpg"] :=
  claim_c2_amended (fun _ => none) "" ["a_ph_0.tif", "a_ph_0.jpg"] _ "a_ph_0" rfl

/-- C3 counterexample: on the stem `zoo_kcz_chimp_ph_00`, the last
underscore token is `00`, which is not even a key of ORIGINAL_FORMAT_MAP,
yet synthesis succeeds with Original-Format `photo` (the value of the
SECOND-to-last token `ph`): the format code used is not the token at index
`len-1`. -/
theorem claim_c3_counterexample :
    (synthesizeRow (fun _ => none) "" "zoo_kcz_chimp_ph_00.tif").map
        (fun r => r.originalFormat) = Except.ok "photo" ∧
      (pySplit '_' (splitextStem "zoo_kcz_chimp_ph_00.tif")).getLastD "" = "00" ∧
      lookupStr ORIGINAL_FORMAT_MAP "00" = none :=
  ⟨rfl, rfl, rfl⟩

/-- C3 amended: the format code the synthesizer uses for its
Original-Format, Type, Creator, and Language lookups is the token at index
`len-2` of the underscore-split stem (the second-to-last token), not the
last one. -/
theorem claim_c3_amended (probe : String → Option (Nat × Nat))
    (baseUrl fileName : String) (r : MetadataRecord)
    (h : synthesizeRow probe baseUrl fileName = Except.ok r) :
    ∃ code,
      (pySplit '_' (splitextStem fileName)).get?
          ((pySplit '_' (splitextStem fileName)).length - 2) = some code ∧
      lookupStr ORIGINAL_FORMAT_MAP code = some r.originalFormat ∧
      lookupStr CREATOR_MAP code = some r.creator ∧
      r.language = (lookupStr LANGUAGE_MAP code).getD "" ∧
      r.type = (if code = "rp" then "Text" else "StillImage") := by
  obtain ⟨code, ofv, ext, fmt, cr, hc, h2, h3, h4, h5, hr⟩ :=
    synthesizeRow_ok_inv probe baseUrl fileName r h
  subst hr
  exact ⟨code, pyIndexNeg_ok_get? _ 2 code hc, h2, h5, rfl, rfl⟩

/-- Witness for C3 amended on the scenario filename. -/
theorem claim_c3_amended_witness :
    ∃ code,
      (pySplit '_' (splitextStem "zoo_kcz_chimp_ph_00.tif")).get?
          ((pySplit '_' (splitextStem "zoo_kcz_chimp_ph_00.tif")).length - 2) = some code ∧
      lookupStr ORIGINAL_FORMAT_MAP code =
        some ((synthesizeRow (fun _ => none) "" "zoo_kcz_chimp_ph_00.tif").toOption.getD default).originalFormat ∧
      lookupStr CREATOR_MAP code =
        some ((synthesizeRow (fun _ => none) "" "zoo_kcz_chimp_ph_00.tif").toOption.getD default).creator ∧
      ((synthesizeRow (fun _ => none) "" "zoo_kcz_chimp_ph_00.tif").toOption.getD default).language =
        (lookupStr LANGUAGE_MAP code).getD "" ∧
      ((synthesizeRow (fun _ => none) "" "zoo_kcz_chimp_ph_00.tif").toOption.getD default).type =
        (if code = "rp" then "Text" else "StillImage") :=
  claim_c3_amended (fun _ => none) "" "zoo_kcz_chimp_ph_00.tif" _ rfl

/-- C4: a registry row with an empty omeka_id and a matching export row has
its omeka_id set to the final slash-delimited segment of the export row's
file URL with the extension removed (split on `/`, take last; split on `.`,
take first) and its item_id set to the export row's Item Id. -/
theorem claim_c4 (exportTbl : List (String × ExportRow)) (er : ExportRow)
    (row : RegistryRow) (h1 : row.omeka_id = "")
    (h2 : exportLoc exportTbl row.identifier = Except.ok er) :
    reconcileRow exportTbl row = Except.ok
      { row with
        omeka_id := (pySplit '.' ((pySplit '/' er.file).getLastD "")).headD "",
        item_id := er.itemId } :=
  reconcileRow_empty exportTbl er row h1 h2

/-- Witness for C4 on the spec scenario: export file
`https://host/path/AB123.tif` with Item Id `999` yields omeka_id `AB123`
and item_id `999`. -/
theorem claim_c4_witness :
    reconcileRow [("x1", { file := "https://host/path/AB123.tif", itemId := "999" })]
        { identifier := "x1", omeka_id := "", item_id := "" } =
      Except.ok { identifier := "x1", omeka_id := "AB123", item_id := "999" } :=
  claim_c4 [("x1", { file := "https://host/path/AB123.tif", itemId := "999" })]
    { file := "https://host/path/AB123.tif", itemId := "999" }
    { identifier := "x1", omeka_id := "", item_id := "" } rfl rfl

/-- C5: a registry row whose omeka_id is nonempty passes through the whole
reconciliation pass unchanged, so re-running reconciliation over a partially
reconciled registry is idempotent on those rows. -/
theorem claim_c5 (exportTbl : List (String × ExportRow)) :
    ∀ (registry out : List RegistryRow),
      reconcilePass exportTbl registry = Except.ok out →
      ∀ (i : Nat) (hi : i < registry.length),
        (registry.get ⟨i, hi⟩).omeka_id ≠ "" →
        out.get? i = some (registry.get ⟨i, hi⟩) := by
  intro registry
  induction registry with
  | nil => intro out h i hi; exact absurd hi (by simp)
  | cons row rest ih =>
      intro out h i hi hne
      unfold reconcilePass at h
      cases hr : reconcileRow exportTbl row with
      | error e => rw [hr] at h; exact absurd h (by simp)
      | ok row2 =>
          rw [hr] at h
          cases hp : reconcilePass exportTbl rest with
          | error e => rw [hp] at h; exact absurd h (by simp)
          | ok rest2 =>
              rw [hp] at h
              have hout : out = row2 :: rest2 := (Except.ok.inj h).symm
              subst hout
              cases i with
              | zero =>
                  have hne0 : row.omeka_id ≠ "" := hne
                  rw [reconcileRow_nonempty exportTbl row hne0] at hr
                  have : row = row2 := Except.ok.inj hr
                  simp [← this]
              | succ j =>
                  have hj : j < rest.length := by simpa using hi
                  have := ih rest2 hp j hj (by simpa using hne)
                  simpa using this

/-- Witness for C5 on a one-row registry with a nonempty omeka_id. -/
theorem claim_c5_witness :
    ([{ identifier := "x1", omeka_id := "AB", item_id := "1" }] : List RegistryRow).get? 0 =
      some { identifier := "x1", omeka_id := "AB", item_id := "1" } :=
  claim_c5 [] [{ identifier := "x1", omeka_id := "AB", item_id := "1" }]
    [{ identifier := "x1", omeka_id := "AB", item_id := "1" }] rfl 0 (by decide)
    (by decide)

/-- C6 counterexample: for the filename `zoo_kcz_chimp_ph_00.bmp` (extension
`bmp` absent from FORMAT_MAP) synthesis fails with `KeyError: bmp`, whose
message names the missing code but NOT the offending filename. -/
theorem claim_c6_counterexample :
    synthesizeRow (fun _ => none) "" "zoo_kcz_chimp_ph_00.bmp" =
        Except.error (PyError.keyError "bmp") ∧
      ¬ mentions (pyErrorMessage (PyError.keyError "bmp")) "zoo_kcz_chimp_ph_00.bmp" := by
  refine ⟨rfl, ?_⟩
  rintro ⟨pre, post, hq⟩
  have h1 : (pyErrorMessage (PyError.keyError "bmp")).length = 13 := rfl
  rw [hq, String.length_append, String.length_append] at h1
  have h2 : ("zoo_kcz_chimp_ph_00.bmp" : String).length = 23 := rfl
  rw [h2] at h1
  omega

/-- C6 amended: a filename whose format code is absent from
ORIGINAL_FORMAT_MAP or whose extension is absent from FORMAT_MAP makes
synthesis fail hard with a KeyError naming the missing code (the format
code when it is the missing one, else the extension), and any batch
containing it aborts without emitting a table; the failure does not name
the filename. -/
theorem claim_c6_amended (probe : String → Option (Nat × Nat))
    (baseUrl fileName code : String) (l1 l2 : List String)
    (hc : formatCodeOf (splitextStem fileName) = Except.ok code)
    (hmiss : lookupStr ORIGINAL_FORMAT_MAP code = none ∨
      lookupStr FORMAT_MAP ((pySplit '.' fileName).getLastD "") = none) :
    ∃ k, (k = code ∧ lookupStr ORIGINAL_FORMAT_MAP code = none ∨
          k = (pySplit '.' fileName).getLastD "" ∧
            lookupStr FORMAT_MAP ((pySplit '.' fileName).getLastD "") = none) ∧
      synthesizeRow probe baseUrl fileName = Except.error (PyError.keyError k) ∧
      mentions (pyErrorMessage (PyError.keyError k)) k ∧
      ∃ e2, generateMetadataTable probe baseUrl (l1 ++ fileName :: l2) = Except.error e2 := by
  have h3 : pyIndexNeg (pySplit '.' fileName) 1 =
      Except.ok ((pySplit '.' fileName).getLastD "") :=
    pyIndexNeg_one _ (pySplit_ne_nil '.' fileName)
  cases hof : lookupStr ORIGINAL_FORMAT_MAP code with
  | none =>
      have hsynth : synthesizeRow probe baseUrl fileName =
          Except.error (PyError.keyError code) := by
        unfold synthesizeRow
        simp only [hc, pyDictGet, hof]
      refine ⟨code, Or.inl ⟨rfl, rfl⟩, hsynth,
        ⟨"KeyError: ", "", by simp [pyErrorMessage]⟩, ?_⟩
      obtain ⟨e2, he⟩ := buildRows_error_of_mem probe baseUrl fileName _ hsynth l1 l2
      exact ⟨e2, by simp [generateMetadataTable, he, Except.map]⟩
  | some ofv =>
      have hfm : lookupStr FORMAT_MAP ((pySplit '.' fileName).getLastD "") = none := by
        cases hmiss with
        | inl hl => rw [hof] at hl; exact absurd hl (by simp)
        | inr hr => exact hr
      have hsynth : synthesizeRow probe baseUrl fileName =
          Except.error (PyError.keyError ((pySplit '.' fileName).getLastD "")) := by
        unfold synthesizeRow
        simp only [hc, pyDictGet, hof, h3, hfm]
      refine ⟨(pySplit '.' fileName).getLastD "", Or.inr ⟨rfl, hfm⟩, hsynth,
        ⟨"KeyError: ", "", by simp [pyErrorMessage]⟩, ?_⟩
      obtain ⟨e2, he⟩ := buildRows_error_of_mem probe baseUrl fileName _ hsynth l1 l2
      exact ⟨e2, by simp [generateMetadataTable, he, Except.map]⟩

/-- Witness for C6 amended, exercising both halves: the `bmp` scenario
(extension missing from FORMAT_MAP) and an unknown format code `xx` with a
valid extension. -/
theorem claim_c6_amended_witness :
    (∃ k, (k = "ph" ∧ lookupStr ORIGINAL_FORMAT_MAP "ph" = none ∨
           k = (pySplit '.' "zoo_kcz_chimp_ph_00.bmp").getLastD "" ∧
             lookupStr FORMAT_MAP ((pySplit '.' "zoo_kcz_chimp_ph_00.bmp").getLastD "") = none) ∧
      synthesizeRow (fun _ => none) "" "zoo_kcz_chimp_ph_00.bmp" =
        Except.error (PyError.keyError k) ∧
      mentions (pyErrorMessage (PyError.keyError k)) k ∧
      ∃ e2, generateMetadataTable (fun _ => none) ""
          ([] ++ "zoo_kcz_chimp_ph_00.bmp" :: []) = Except.error e2) ∧
    (∃ k, (k = "xx" ∧ lookupStr ORIGINAL_FORMAT_MAP "xx" = none ∨
           k = (pySplit '.' "zoo_kcz_chimp_xx_00.tif").getLastD "" ∧
             lookupStr FORMAT_MAP ((pySplit '.' "zoo_kcz_chimp_xx_00.tif").getLastD "") = none) ∧
      synthesizeRow (fun _ => none) "" "zoo_kcz_chimp_xx_00.tif" =
        Except.error (PyError.keyError k) ∧
      mentions (pyErrorMessage (PyError.keyError k)) k ∧
      ∃ e2, generateMetadataTable (fun _ => none) ""
          ([] ++ "zoo_kcz_chimp_xx_00.tif" :: []) = Except.error e2) :=
  ⟨claim_c6_amended (fun _ => none) "" "zoo_kcz_chimp_ph_00.bmp" "ph" [] [] rfl (Or.inr rfl),
   claim_c6_amended (fun _ => none) "" "zoo_kcz_chimp_xx_00.tif" "xx" [] [] rfl (Or.inl rfl)⟩

/-- C7: when the dimension probe fails, the synthesizer completes the record
normally with an empty Physical-Dimensions field: a record that synthesizes
successfully under any probe synthesizes to the identical record with empty
dimensions under the always-failing probe, and no error is propagated. -/
theorem claim_c7 (probe : String → Option (Nat × Nat)) (baseUrl fileName : String)
    (r : MetadataRecord) (h : synthesizeRow probe baseUrl fileName = Except.ok r) :
    synthesizeRow (fun _ => none) baseUrl fileName =
      Except.ok { r with physicalDimensions := "" } := by
  obtain ⟨code, ofv, ext, fmt, cr, hc, h2, h3, h4, h5, hr⟩ :=
    synthesizeRow_ok_inv probe baseUrl fileName r h
  subst hr
  rw [synthesizeRow_eq (fun _ => none) baseUrl fileName code ofv ext fmt cr hc h2 h3 h4 h5]
  rfl

/-- Witness for C7: a probe that returns 10x20 versus the failing probe. -/
theorem claim_c7_witness :
    synthesizeRow (fun _ => none) "b" "zoo_kcz_chimp_ph_00.tif" =
      Except.ok
        { (synthesizeRow (fun _ => some (10, 20)) "b" "zoo_kcz_chimp_ph_00.tif").toOption.getD
            default with
          physicalDimensions := "" } :=
  claim_c7 (fun _ => some (10, 20)) "b" "zoo_kcz_chimp_ph_00.tif" _ rfl

/-- C8 counterexample: the stem `chimp` has a single underscore token, and
synthesis fails with an IndexError (the `[-2]` lookup indexes out of
bounds), rather than treating missing tokens as empty. -/
theorem claim_c8_counterexample :
    (pySplit '_' (splitextStem "chimp.tif")).length = 1 ∧
      synthesizeRow (fun _ => none) "" "chimp.tif" = Except.error PyError.indexError :=
  ⟨rfl, rfl⟩

/-- C8 amended: for every filename whose stem has fewer than two underscore
tokens, synthesis deterministically fails with an IndexError raised by the
`[-2]` format-code extraction; missing tokens are not treated as empty. -/
theorem claim_c8_amended (probe : String → Option (Nat × Nat))
    (baseUrl fileName : String)
    (h : (pySplit '_' (splitextStem fileName)).length < 2) :
    synthesizeRow probe baseUrl fileName = Except.error PyError.indexError := by
  have hfc : formatCodeOf (splitextStem fileName) = Except.error PyError.indexError := by
    unfold formatCodeOf pyIndexNeg
    rw [dif_neg (by omega : ¬(1 ≤ 2 ∧ 2 ≤ (pySplit '_' (splitextStem fileName)).length))]
  unfold synthesizeRow
  simp only [hfc]

/-- Witness for C8 amended on the one-token stem `x`. -/
theorem claim_c8_amended_witness :
    synthesizeRow (fun _ => none) "" "x.tif" = Except.error PyError.indexError :=
  claim_c8_amended (fun _ => none) "" "x.tif" (by decide)

/-- C9: the tags string for a pair of category tokens is the comma-join of
the display labels of exactly the tokens found in TAGS_MAP, in token order,
with no empty segment for an unrecognized token; and the synthesized
record's Tags field is exactly this string for the first two stem tokens. -/
theorem claim_c9 :
    (∀ t1 t2 : String,
      tagString [t1, t2] =
        match lookupStr TAGS_MAP t1, lookupStr TAGS_MAP t2 with
        | some v1, some v2 => v1 ++ "," ++ v2
        | some v1, none => v1
        | none, some v2 => v2
        | none, none => "") ∧
    (∀ (probe : String → Option (Nat × Nat)) (baseUrl fileName : String) (r : MetadataRecord),
      synthesizeRow probe baseUrl fileName = Except.ok r →
      r.tags = tagString ((pySplit '_' (splitextStem fileName)).take 2)) := by
  constructor
  · intro t1 t2
    cases h1 : lookupStr TAGS_MAP t1 <;> cases h2 : lookupStr TAGS_MAP t2 <;>
      simp [tagString, tagListOf, joinComma, h1, h2]
  · intro probe baseUrl fileName r h
    obtain ⟨code, ofv, ext, fmt, cr, hc, h2, h3, h4, h5, hr⟩ :=
      synthesizeRow_ok_inv probe baseUrl fileName r h
    subst hr
    rfl

/-- Witness for C9: the pair `["zoo", "unknown"]` yields `zoo` with no empty
segment, and the scenario record's Tags field matches the tag string of its
first two stem tokens. -/
theorem claim_c9_witness :
    tagString ["zoo", "unknown"] = "zoo" ∧
      ((synthesizeRow (fun _ => none) "" "zoo_kcz_chimp_ph_00.tif").toOption.getD default).tags =
        tagString ((pySplit '_' (splitextStem "zoo_kcz_chimp_ph_00.tif")).take 2) := by
  constructor
  · exact claim_c9.1 "zoo" "unknown"
  · exact claim_c9.2 (fun _ => none) "" "zoo_kcz_chimp_ph_00.tif" _ rfl

/-- C10: a registry row with an empty omeka_id gets its item_id overwritten
with the export row's Item Id even when the item_id is already nonempty:
the mutation guard inspects only omeka_id. -/
theorem claim_c10 (exportTbl : List (String × ExportRow)) (er : ExportRow)
    (row : RegistryRow) (h1 : row.omeka_id = "") (_hitem : row.item_id ≠ "")
    (h2 : exportLoc exportTbl row.identifier = Except.ok er) :
    ∃ row2, reconcileRow exportTbl row = Except.ok row2 ∧ row2.item_id = er.itemId :=
  ⟨_, reconcileRow_empty exportTbl er row h1 h2, rfl⟩

/-- Witness for C10 on a row whose item_id is already `old`. -/
theorem claim_c10_witness :
    ∃ row2, reconcileRow [("x1", { file := "https://host/path/AB123.tif", itemId := "999" })]
        { identifier := "x1", omeka_id := "", item_id := "old" } = Except.ok row2 ∧
      row2.item_id = ("999" : String) :=
  claim_c10 [("x1", { file := "https://host/path/AB123.tif", itemId := "999" })]
    { file := "https://host/path/AB123.tif", itemId := "999" }
    { identifier := "x1", omeka_id := "", item_id := "old" } rfl (by simp) rfl

end Bassett
